import Mathlib

/-!
# Verification of the inter-agent message broker

Shallow embedding of `src/core/message_queue.py` and `src/agents/base/agent.py`
(the Message value type, the Redis-backed priority store, publish/pop,
task queues, history retention, and the agent runtime shim), with theorems
checking the specification's claims about them.

Modelling conventions:
* timestamps (`created_at`, `expires_at`, the "now" of each call) are integers
  (epoch seconds), matching the code's use of `int(datetime.timestamp())` and
  `int(total_seconds())` in all score and TTL arithmetic;
* `Dict[str, Any]` payloads and JSON wire data are modelled by the `JsonVal`
  type below; Python dict / JSON-object lookups are first-match association
  list lookups (keys are unique in every dict the code builds);
* Redis is modelled as a per-key store where each key holds a sorted set
  (member-score pairs) and an optional absolute expiry instant; a key whose
  expiry has been reached behaves as absent (Redis lazy expiration), and
  `EXPIRE` with a non-positive TTL deletes the key, as Redis does;
* a raised exception that escapes a function is an `Except.error` carrying the
  exception message; a caught exception is the code's documented fallback.
-/

/-- JSON-like values: the wire format produced by `model_dump_json` /
`json.dumps` and consumed by `model_validate_json` / `json.loads`. -/
inductive JsonVal : Type where
  | null : JsonVal
  | bool (b : Bool) : JsonVal
  | num (n : Int) : JsonVal
  | str (s : String) : JsonVal
  | arr (elems : List JsonVal) : JsonVal
  | obj (fields : List (String × JsonVal)) : JsonVal
deriving Repr

mutual

/-- Decidable equality for `JsonVal` (written by hand: `deriving` does not
handle the nesting through `List`). -/
def JsonVal.decEq : (a b : JsonVal) → Decidable (a = b)
  | .null, .null => isTrue rfl
  | .bool a, .bool b =>
    match Bool.decEq a b with
    | isTrue h => isTrue (by rw [h])
    | isFalse h => isFalse (by intro e; exact h (JsonVal.bool.inj e))
  | .num a, .num b =>
    match Int.decEq a b with
    | isTrue h => isTrue (by rw [h])
    | isFalse h => isFalse (by intro e; exact h (JsonVal.num.inj e))
  | .str a, .str b =>
    match String.decEq a b with
    | isTrue h => isTrue (by rw [h])
    | isFalse h => isFalse (by intro e; exact h (JsonVal.str.inj e))
  | .arr xs, .arr ys =>
    match JsonVal.decEqList xs ys with
    | isTrue h => isTrue (by rw [h])
    | isFalse h => isFalse (by intro e; exact h (JsonVal.arr.inj e))
  | .obj xs, .obj ys =>
    match JsonVal.decEqFields xs ys with
    | isTrue h => isTrue (by rw [h])
    | isFalse h => isFalse (by intro e; exact h (JsonVal.obj.inj e))
  | .null, .bool _ | .null, .num _ | .null, .str _ | .null, .arr _ | .null, .obj _
  | .bool _, .null | .bool _, .num _ | .bool _, .str _ | .bool _, .arr _ | .bool _, .obj _
  | .num _, .null | .num _, .bool _ | .num _, .str _ | .num _, .arr _ | .num _, .obj _
  | .str _, .null | .str _, .bool _ | .str _, .num _ | .str _, .arr _ | .str _, .obj _
  | .arr _, .null | .arr _, .bool _ | .arr _, .num _ | .arr _, .str _ | .arr _, .obj _
  | .obj _, .null | .obj _, .bool _ | .obj _, .num _ | .obj _, .str _ | .obj _, .arr _ =>
    isFalse (by intro e; exact JsonVal.noConfusion e)

/-- Decidable equality for lists of `JsonVal`. -/
def JsonVal.decEqList : (xs ys : List JsonVal) → Decidable (xs = ys)
  | [], [] => isTrue rfl
  | x :: xs, y :: ys =>
    match JsonVal.decEq x y, JsonVal.decEqList xs ys with
    | isTrue h1, isTrue h2 => isTrue (by rw [h1, h2])
    | isFalse h1, _ => isFalse (by intro e; injection e with e1 e2; exact h1 e1)
    | _, isFalse h2 => isFalse (by intro e; injection e with e1 e2; exact h2 e2)
  | [], _ :: _ => isFalse (by intro e; exact List.noConfusion e)
  | _ :: _, [] => isFalse (by intro e; exact List.noConfusion e)

/-- Decidable equality for JSON object field lists. -/
def JsonVal.decEqFields : (xs ys : List (String × JsonVal)) → Decidable (xs = ys)
  | [], [] => isTrue rfl
  | (k1, v1) :: xs, (k2, v2) :: ys =>
    match String.decEq k1 k2, JsonVal.decEq v1 v2, JsonVal.decEqFields xs ys with
    | isTrue hk, isTrue hv, isTrue ht => isTrue (by rw [hk, hv, ht])
    | isFalse hk, _, _ =>
      isFalse (by intro e; injection e with e1 e2; exact hk (congrArg Prod.fst e1))
    | _, isFalse hv, _ =>
      isFalse (by intro e; injection e with e1 e2; exact hv (congrArg Prod.snd e1))
    | _, _, isFalse ht => isFalse (by intro e; injection e with e1 e2; exact ht e2)
  | [], _ :: _ => isFalse (by intro e; exact List.noConfusion e)
  | _ :: _, [] => isFalse (by intro e; exact List.noConfusion e)

end

instance : DecidableEq JsonVal := JsonVal.decEq

/-- `Message` from `src/core/message_queue.py` (pydantic `BaseModel`).
`payload : Dict[str, Any]` is an association list of JSON values; the
datetimes `created_at` and `expires_at` are epoch-second integers. -/
structure Message : Type where
  id : String
  from_agent : String
  to_agent : Option String
  message_type : String
  payload : List (String × JsonVal)
  priority : Int
  created_at : Int
  expires_at : Option Int
  correlation_id : Option String
deriving Repr, DecidableEq

/-- First-match lookup in a string-keyed association list (Python `dict.get`,
JSON object field access; keys are unique in every dict the code builds). -/
def tableGet {β : Type} : List (String × β) → String → Option β
  | [], _ => none
  | (k, v) :: rest, key => if k = key then some v else tableGet rest key

/-- Set a key in a string-keyed association list, replacing the existing
binding if present (Python `dict[k] = v`, Redis key write). -/
def tableSet {β : Type} : List (String × β) → String → β → List (String × β)
  | [], key, v => [(key, v)]
  | (k, v0) :: rest, key, v =>
    if k = key then (key, v) :: rest else (k, v0) :: tableSet rest key v

/-- Delete a key from a string-keyed association list (Redis key deletion). -/
def tableDel {β : Type} : List (String × β) → String → List (String × β)
  | [], _ => []
  | (k, v0) :: rest, key =>
    if k = key then tableDel rest key else (k, v0) :: tableDel rest key

/-- One Redis key holding a sorted set (member-score pairs, members unique)
and an optional absolute expiry instant set by `EXPIRE`. -/
structure RKey (α : Type) : Type where
  entries : List (α × Int)
  expiry : Option Int
deriving Repr

/-- A Redis keyspace of sorted-set keys. -/
abbrev RStore (α : Type) : Type := List (String × RKey α)

/-- A key is live at `now` when it has no expiry or its expiry instant has not
yet been reached (`EXPIRE key ttl` makes the key unreadable from
`now + ttl` on; a non-positive ttl deletes it at once). -/
def RKey.live {α : Type} (now : Int) (k : RKey α) : Bool :=
  match k.expiry with
  | none => true
  | some e => decide (now < e)

/-- Read a key, treating an expired-but-present key as absent
(Redis lazy expiration). -/
def getLive {α : Type} (now : Int) (s : RStore α) (name : String) : Option (RKey α) :=
  match tableGet s name with
  | some k => if k.live now then some k else none
  | none => none

/-- `ZADD key {member: score}` on one member list: update the member's score
if the member is present, otherwise append it. -/
def zaddEntries {α : Type} [DecidableEq α] : List (α × Int) → α → Int → List (α × Int)
  | [], member, score => [(member, score)]
  | (m, sc) :: rest, member, score =>
    if m = member then (member, score) :: rest
    else (m, sc) :: zaddEntries rest member score

/-- `ZADD key {member: score}`: writing to an absent or expired key creates a
fresh key with no expiry; writing to a live key keeps its expiry (Redis write
commands do not clear a TTL). -/
def zadd {α : Type} [DecidableEq α] (now : Int) (s : RStore α) (name : String)
    (member : α) (score : Int) : RStore α :=
  match getLive now s name with
  | some k => tableSet s name { k with entries := zaddEntries k.entries member score }
  | none => tableSet s name { entries := [(member, score)], expiry := none }

/-- The minimum-score entry of a member list (`ZPOPMIN` selection). Redis
breaks score ties by lexicographic member order; every property below has
pairwise distinct scores, so the model's earliest-listed tie-break is never
exercised. -/
def minEntry {α : Type} : List (α × Int) → Option (α × Int)
  | [] => none
  | p :: rest =>
    match minEntry rest with
    | none => some p
    | some q => if q.2 < p.2 then some q else some p

/-- Remove a member from a member list (members are unique). -/
def removeFirst {α : Type} [DecidableEq α] : List (α × Int) → α → List (α × Int)
  | [], _ => []
  | (m, sc) :: rest, member =>
    if m = member then rest else (m, sc) :: removeFirst rest member

/-- `ZPOPMIN key 1`: remove and return the lowest-score entry of a live key;
a key emptied by the pop is deleted (Redis keeps no empty sorted sets). -/
def zpopmin {α : Type} [DecidableEq α] (now : Int) (s : RStore α) (name : String) :
    Option (α × Int) × RStore α :=
  match getLive now s name with
  | none => (none, s)
  | some k =>
    match minEntry k.entries with
    | none => (none, s)
    | some (m, sc) =>
      match removeFirst k.entries m with
      | [] => (some (m, sc), tableDel s name)
      | rest => (some (m, sc), tableSet s name { k with entries := rest })

/-- `ZCARD key`: number of members of a live key, 0 for an absent or expired
key. -/
def zcard {α : Type} (now : Int) (s : RStore α) (name : String) : Nat :=
  match getLive now s name with
  | some k => k.entries.length
  | none => 0

/-- `EXPIRE key ttl`: set the key's expiry `ttl` seconds from now; Redis
deletes the key at once when the ttl is non-positive, and does nothing when
the key does not exist (or has itself expired). -/
def expireKey {α : Type} (now : Int) (s : RStore α) (name : String) (ttl : Int) : RStore α :=
  match getLive now s name with
  | none => s
  | some k =>
    if ttl ≤ 0 then tableDel s name
    else tableSet s name { k with expiry := some (now + ttl) }

/-- Encode an optional string as pydantic does on the wire: `null` when
absent. -/
def jsonOfOptStr : Option String → JsonVal
  | none => .null
  | some s => .str s

/-- Encode an optional timestamp as pydantic does on the wire: `null` when
absent. -/
def jsonOfOptInt : Option Int → JsonVal
  | none => .null
  | some n => .num n

/-- `message.model_dump_json()`: the wire form of a Message, one JSON object
whose field names are exactly the model's field names. -/
def model_dump_json (m : Message) : JsonVal :=
  .obj [("id", .str m.id),
        ("from_agent", .str m.from_agent),
        ("to_agent", jsonOfOptStr m.to_agent),
        ("message_type", .str m.message_type),
        ("payload", .obj m.payload),
        ("priority", .num m.priority),
        ("created_at", .num m.created_at),
        ("expires_at", jsonOfOptInt m.expires_at),
        ("correlation_id", jsonOfOptStr m.correlation_id)]

/-- Decode a required string field. -/
def jsonToStr : JsonVal → Option String
  | .str s => some s
  | _ => none

/-- Decode an optional string field (`null` means absent). -/
def jsonToOptStr : JsonVal → Option (Option String)
  | .null => some none
  | .str s => some (some s)
  | _ => none

/-- Decode an optional timestamp field (`null` means absent). -/
def jsonToOptInt : JsonVal → Option (Option Int)
  | .null => some none
  | .num n => some (some n)
  | _ => none

/-- Decode a required integer field. -/
def jsonToInt : JsonVal → Option Int
  | .num n => some n
  | _ => none

/-- Decode a required JSON-object field. -/
def jsonToFields : JsonVal → Option (List (String × JsonVal))
  | .obj fs => some fs
  | _ => none

/-- `Message.model_validate_json(data)`: parse the wire form back into a
Message, re-applying the model's `priority` bounds (`ge=1, le=10`); a
validation failure is `none` (pydantic raises `ValidationError`). The wire
form written by `model_dump_json` always carries every field, so the model
reads each field as required; pydantic's defaults for absent fields never
fire on round-trips and are not modelled. -/
def model_validate_json (j : JsonVal) : Option Message := do
  let fs ← jsonToFields j
  let id ← tableGet fs "id" >>= jsonToStr
  let from_agent ← tableGet fs "from_agent" >>= jsonToStr
  let to_agent ← tableGet fs "to_agent" >>= jsonToOptStr
  let message_type ← tableGet fs "message_type" >>= jsonToStr
  let payload ← tableGet fs "payload" >>= jsonToFields
  let priority ← tableGet fs "priority" >>= jsonToInt
  let created_at ← tableGet fs "created_at" >>= jsonToInt
  let expires_at ← tableGet fs "expires_at" >>= jsonToOptInt
  let correlation_id ← tableGet fs "correlation_id" >>= jsonToOptStr
  if 1 ≤ priority ∧ priority ≤ 10 then
    some { id := id, from_agent := from_agent, to_agent := to_agent,
           message_type := message_type, payload := payload, priority := priority,
           created_at := created_at, expires_at := expires_at,
           correlation_id := correlation_id }
  else
    none

/-- Constructing a `Message(...)` with every field given explicitly: pydantic
validates the declared constraints. The model declares `priority: int =
Field(default=5, ge=1, le=10)`; `from_agent: str` carries no length
constraint, so any string (including the empty string) is accepted.
Construction is pure: no side effects, no I/O. -/
def mkMessage (id : String) (from_agent : String) (to_agent : Option String)
    (message_type : String) (payload : List (String × JsonVal)) (priority : Int)
    (created_at : Int) (expires_at : Option Int) (correlation_id : Option String) :
    Option Message :=
  if 1 ≤ priority ∧ priority ≤ 10 then
    some { id := id, from_agent := from_agent, to_agent := to_agent,
           message_type := message_type, payload := payload, priority := priority,
           created_at := created_at, expires_at := expires_at,
           correlation_id := correlation_id }
  else
    none

/-- The broker's Redis connection state, as seen by `MessageQueue`:
`reachable` is whether Redis commands currently succeed (an unreachable
server makes every awaited command raise); `store` is the durable-queue
keyspace; `pubsub` is the log of live `PUBLISH` deliveries
`(channel, message)`. The sorted-set member is the serialized message
string; `model_dump_json` is injective (the round-trip theorem recovers
every field), so members are modelled by the `Message` value itself. -/
structure MQ : Type where
  reachable : Bool
  store : RStore Message
  pubsub : List (String × Message)
deriving Repr

/-- The default channel of a message: `agent:<to_agent>` when addressed,
`broadcast` otherwise. -/
def default_channel (message : Message) : String :=
  match message.to_agent with
  | some t => "agent:" ++ t
  | none => "broadcast"

/-- The channel a publish resolves to. The code's guard is Python's
`if not channel:`, which treats both `None` and the empty string as
"no channel given" and falls back to the message's default channel. -/
def resolve_channel (message : Message) (channel : Option String) : String :=
  match channel with
  | some c => if c = "" then default_channel message else c
  | none => default_channel message

/-- `MessageQueue.publish_message(message, channel)` at time `now`.
`redis = none` models `self.redis` not connected: the code raises
`RuntimeError("Redis not connected")` before its `try` block. Inside the
`try`: resolve the channel (falsy `channel` arguments — `None` or `""` —
fall back to the message's default channel), `PUBLISH` the serialized
message, `ZADD` it into `queue:<channel>` with score
`priority * 1000000 - created_at`, and when `expires_at` is set, `EXPIRE` the
whole queue key with ttl `expires_at - created_at`; any command failure is
caught and surfaced as `False`. -/
def publish_message (now : Int) (redis : Option MQ) (message : Message)
    (channel : Option String) : Except String (MQ × Bool) :=
  match redis with
  | none => .error "Redis not connected"
  | some r =>
    if r.reachable then
      let ch := resolve_channel message channel
      let r := { r with pubsub := r.pubsub ++ [(ch, message)] }
      let priority_score := message.priority * 1000000 - message.created_at
      let queue_key := "queue:" ++ ch
      let r := { r with store := zadd now r.store queue_key message priority_score }
      let r := match message.expires_at with
        | some e => { r with store := expireKey now r.store queue_key (e - message.created_at) }
        | none => r
      .ok (r, true)
    else
      .ok (r, false)

/-- `MessageQueue.get_message_from_queue(channel)` at time `now`: raises when
not connected, otherwise `ZPOPMIN queue:<channel> 1` and re-validate the
popped serialized message (`Message.model_validate_json`); an empty or
expired queue, a command failure, or a validation failure all yield `None`
(the entry popped by a failed validation stays removed). -/
def get_message_from_queue (now : Int) (redis : Option MQ) (channel : String) :
    Except String (Option Message × MQ) :=
  match redis with
  | none => .error "Redis not connected"
  | some r =>
    if r.reachable then
      let queue_key := "queue:" ++ channel
      let (res, store) := zpopmin now r.store queue_key
      match res with
      | none => .ok (none, { r with store := store })
      | some (m, _) => .ok (model_validate_json (model_dump_json m), { r with store := store })
    else
      .ok (none, r)

/-- `MessageQueue.get_queue_length(queue_name)` at time `now`: raises when not
connected, `ZCARD queue:<name>` otherwise; a command failure yields 0. -/
def get_queue_length (now : Int) (redis : Option MQ) (queue_name : String) :
    Except String Nat :=
  match redis with
  | none => .error "Redis not connected"
  | some r =>
    if r.reachable then .ok (zcard now r.store ("queue:" ++ queue_name))
    else .ok 0

/-- A task handed to the task queue: a `Dict[str, Any]`, serialized with
`json.dumps` (injective on dicts) for storage. -/
abbrev TaskDict : Type := List (String × JsonVal)

/-- `MessageQueue.add_task_to_queue(queue_name, task, priority)` at time
`now`: raises when not connected; `ZADD queue:<name>` with score
`priority * 1000000 - now` (the enqueue instant), returning `True`; a command
failure is caught and surfaced as `False`. -/
def add_task_to_queue (now : Int) (redis : Option (RStore TaskDict)) (queue_name : String)
    (task : TaskDict) (priority : Int) : Except String (RStore TaskDict × Bool) :=
  match redis with
  | none => .error "Redis not connected"
  | some s =>
    let queue_key := "queue:" ++ queue_name
    let score := priority * 1000000 - now
    .ok (zadd now s queue_key task score, true)

/-- `MessageQueue.get_task_from_queue(queue_name)` at time `now`: raises when
not connected; `ZPOPMIN queue:<name> 1` and `json.loads` the stored task
(exact inverse of the `json.dumps` done on add); an empty queue or a command
failure yields `None`. -/
def get_task_from_queue (now : Int) (redis : Option (RStore TaskDict)) (queue_name : String) :
    Except String (Option TaskDict × RStore TaskDict) :=
  match redis with
  | none => .error "Redis not connected"
  | some s =>
    let (res, s2) := zpopmin now s ("queue:" ++ queue_name)
    .ok (res.map Prod.fst, s2)

/-- The per-agent history lists kept under `history:<agent_id>` keys, newest
entry first. -/
abbrev HistoryStore : Type := List (String × List JsonVal)

/-- The projection built by `store_message_in_history`: a JSON object holding
exactly the fields the code copies out of the message (`created_at` is stored
via `isoformat()`, an injective image of the instant, modelled as the
epoch-second number). -/
def history_record (message : Message) : JsonVal :=
  .obj [("id", .str message.id),
        ("from_agent", .str message.from_agent),
        ("to_agent", jsonOfOptStr message.to_agent),
        ("message_type", .str message.message_type),
        ("payload", .obj message.payload),
        ("created_at", .num message.created_at),
        ("correlation_id", jsonOfOptStr message.correlation_id)]

/-- `MessageQueue.store_message_in_history(agent_id, message)`: silently does
nothing when not connected (this method returns instead of raising);
otherwise `LPUSH` the projection onto `history:<agent_id>` and `LTRIM 0 999`
(keep the newest 1000 entries). -/
def store_message_in_history (redis : Option HistoryStore) (agent_id : String)
    (message : Message) : Option HistoryStore :=
  match redis with
  | none => none
  | some hs =>
    let history_key := "history:" ++ agent_id
    let old := (tableGet hs history_key).getD []
    some (tableSet hs history_key ((history_record message :: old).take 1000))

/-- What `BaseAgent._handle_message` does with one incoming message: discard
it (the self-echo guard, before any handler lookup), invoke the handler
registered for its `message_type`, or fall back to
`handle_custom_message`. -/
inductive HandleResult : Type where
  | discarded : HandleResult
  | handler (name : String) : HandleResult
  | custom : HandleResult
deriving Repr, DecidableEq

/-- The observable state of a `BaseAgent` (`src/agents/base/agent.py`):
identity, the `is_active` / `_running` flags, whether `self.message_queue`
has been set, the `_message_handlers` table (handler values stand for the
bound methods), and the trace of broadcast message types the agent has sent
(each `send_broadcast_message` call appends; it catches every error
internally and returns a boolean, so it never raises). -/
structure AgentRec : Type where
  agent_id : String
  agent_type : String
  is_active : Bool
  message_queue : Bool
  handlers : List (String × String)
  running : Bool
  broadcast_log : List String
deriving Repr, DecidableEq

/-- The default handler table registered by `_register_default_handlers`. -/
def default_handlers : List (String × String) :=
  [("ping", "_handle_ping"),
   ("pong", "_handle_pong"),
   ("heartbeat", "_handle_heartbeat"),
   ("shutdown", "_handle_shutdown"),
   ("status_request", "_handle_status_request")]

/-- `BaseAgent.shutdown()`: clear `_running` and `is_active`, then, whenever
`self.message_queue` is set, broadcast an `agent_shutdown` notice. There is
no guard on the current state: every call runs the same body. The function is
total (never raises: the broadcast catches its own errors). -/
def shutdown (a : AgentRec) : AgentRec :=
  let a := { a with running := false, is_active := false }
  if a.message_queue then
    { a with broadcast_log := a.broadcast_log ++ ["agent_shutdown"] }
  else a

/-- `BaseAgent._handle_message(message)`: first the self-echo guard — a
message whose `from_agent` equals this agent's id returns at once, reaching
no handler — then dispatch on `message_type` through `_message_handlers`,
falling back to `handle_custom_message`. -/
def handle_message (a : AgentRec) (message : Message) : HandleResult :=
  if message.from_agent = a.agent_id then .discarded
  else
    match tableGet a.handlers message.message_type with
    | some h => .handler h
    | none => .custom

/-- The broker state after a `publish_message` call on a connected broker
(the call cannot raise there; on a raise the state is returned unchanged). -/
def pubOk (now : Int) (r : MQ) (message : Message) (channel : Option String) : MQ :=
  match publish_message now (some r) message channel with
  | .ok (r2, _) => r2
  | .error _ => r

/-- Result and post-state of `get_message_from_queue` on a connected broker. -/
def popMsg (now : Int) (r : MQ) (channel : String) : Option Message × MQ :=
  match get_message_from_queue now (some r) channel with
  | .ok res => res
  | .error _ => (none, r)

/-- Result of `get_queue_length` on a connected broker. -/
def queueLen (now : Int) (r : MQ) (queue_name : String) : Nat :=
  match get_queue_length now (some r) queue_name with
  | .ok n => n
  | .error _ => 0

/-- Store after `add_task_to_queue` on a connected broker. -/
def addTaskOk (now : Int) (s : RStore TaskDict) (queue_name : String)
    (task : TaskDict) (priority : Int) : RStore TaskDict :=
  match add_task_to_queue now (some s) queue_name task priority with
  | .ok (s2, _) => s2
  | .error _ => s

/-- Result and post-state of `get_task_from_queue` on a connected broker. -/
def popTask (now : Int) (s : RStore TaskDict) (queue_name : String) :
    Option TaskDict × RStore TaskDict :=
  match get_task_from_queue now (some s) queue_name with
  | .ok res => res
  | .error _ => (none, s)

/-- A fresh connected broker with an empty keyspace. -/
def emptyMQ : MQ := { reachable := true, store := [], pubsub := [] }

theorem tableGet_tableSet_self {β : Type} (t : List (String × β)) (key : String) (v : β) :
    tableGet (tableSet t key v) key = some v := by
  induction t with
  | nil => simp [tableGet, tableSet]
  | cons p rest ih =>
    obtain ⟨k, v0⟩ := p
    by_cases h : k = key
    · simp [tableSet, tableGet, h]
    · simp [tableSet, tableGet, h, ih]

theorem tableGet_tableDel_self {β : Type} (t : List (String × β)) (key : String) :
    tableGet (tableDel t key) key = none := by
  induction t with
  | nil => simp [tableDel, tableGet]
  | cons p rest ih =>
    obtain ⟨k, v0⟩ := p
    by_cases h : k = key
    · simp [tableDel, h, ih]
    · simp [tableDel, tableGet, h, ih]

theorem getLive_live {α : Type} {now : Int} {s : RStore α} {name : String} {k : RKey α}
    (h : getLive now s name = some k) : k.live now = true := by
  unfold getLive at h
  cases hg : tableGet s name with
  | none => rw [hg] at h; exact Option.noConfusion h
  | some k0 =>
    rw [hg] at h
    by_cases hl : k0.live now
    · simp only [hl, if_true] at h
      cases h
      exact hl
    · simp [hl] at h

/-- Whatever the prior keyspace, publishing a message carrying `expires_at`
into a named (non-falsy) channel leaves that channel's whole durable-queue
key dead from instant `now + (expires_at - created_at)` on: either the
`EXPIRE` ttl was non-positive and the key was deleted at once, or the expiry
instant has been reached. -/
theorem publish_expired_key_dead (now t e : Int) (r : MQ) (m : Message) (ch : String)
    (hch : ch ≠ "") (hr : r.reachable = true) (he : m.expires_at = some e)
    (ht : now + (e - m.created_at) ≤ t) :
    getLive t (pubOk now r m (some ch)).store ("queue:" ++ ch) = none := by
  have hres : resolve_channel m (some ch) = ch := by
    simp [resolve_channel, hch]
  unfold pubOk publish_message
  simp only [hr, if_true, he, hres]
  set qk := "queue:" ++ ch with hqk
  set s1 := zadd now r.store qk m (m.priority * 1000000 - m.created_at) with hs1
  have hk1 : ∃ k1, tableGet s1 qk = some k1 ∧ k1.live now = true := by
    rw [hs1]
    unfold zadd
    cases hg : getLive now r.store qk with
    | none =>
      exact ⟨_, tableGet_tableSet_self _ _ _, rfl⟩
    | some k =>
      refine ⟨_, tableGet_tableSet_self _ _ _, ?_⟩
      have h2 := getLive_live hg
      exact h2
  obtain ⟨k1, hk1g, hk1l⟩ := hk1
  show getLive t (expireKey now s1 qk (e - m.created_at)) qk = none
  unfold expireKey getLive
  rw [hk1g]
  simp only [hk1l, if_true]
  by_cases httl : e - m.created_at ≤ 0
  · simp only [httl, if_true]
    rw [tableGet_tableDel_self]
  · simp only [httl, if_false]
    rw [tableGet_tableSet_self]
    have : ¬ (t < now + (e - m.created_at)) := by omega
    simp [RKey.live, this]

/-- A pop on a channel whose durable-queue key is absent or expired returns
nothing and leaves the broker unchanged. -/
theorem popMsg_of_dead (t : Int) (r : MQ) (ch : String) (hr : r.reachable = true)
    (hd : getLive t r.store ("queue:" ++ ch) = none) :
    popMsg t r ch = (none, r) := by
  obtain ⟨rr, rs, rp⟩ := r
  change rr = true at hr
  change getLive t rs _ = none at hd
  subst hr
  unfold popMsg get_message_from_queue zpopmin
  simp [hd]

/-- The length of a channel whose durable-queue key is absent or expired
reads 0. -/
theorem queueLen_of_dead (t : Int) (r : MQ) (ch : String) (hr : r.reachable = true)
    (hd : getLive t r.store ("queue:" ++ ch) = none) :
    queueLen t r ch = 0 := by
  obtain ⟨rr, rs, rp⟩ := r
  change rr = true at hr
  change getLive t rs _ = none at hd
  subst hr
  unfold queueLen get_queue_length zcard
  simp [hd]

theorem pubOk_reachable (now : Int) (r : MQ) (m : Message) (c : Option String) :
    (pubOk now r m c).reachable = r.reachable := by
  unfold pubOk publish_message
  by_cases hr : r.reachable
  · simp only [hr, if_true]
    cases c <;> cases m.expires_at <;> simp
  · simp [hr]

/-- Parsing the wire form of a message recovers the message exactly, for every
message satisfying the model invariant `priority ∈ [1,10]` (every constructed
`Message` satisfies it; parsing re-checks it). -/
theorem validate_dump_roundtrip (m : Message) (h1 : 1 ≤ m.priority) (h2 : m.priority ≤ 10) :
    model_validate_json (model_dump_json m) = some m := by
  obtain ⟨i, fa, ta, mt, pl, pr, ca, ea, ci⟩ := m
  change (1:Int) ≤ pr at h1
  change pr ≤ (10:Int) at h2
  cases ta <;> cases ea <;> cases ci <;>
    simp [model_dump_json, model_validate_json, tableGet, jsonToStr, jsonToFields,
          jsonToInt, jsonToOptStr, jsonToOptInt, jsonOfOptStr, jsonOfOptInt,
          Bind.bind, Option.bind, h1, h2]

/-- A sample message with every optional field left unset. -/
def msgBare : Message :=
  { id := "m-bare", from_agent := "alice", to_agent := none,
    message_type := "heartbeat", payload := [], priority := 5,
    created_at := 1700000000, expires_at := none, correlation_id := none }

/-- A sample agent in its initialized state. -/
def agentA : AgentRec :=
  { agent_id := "alice", agent_type := "base", is_active := true,
    message_queue := true, handlers := default_handlers, running := true,
    broadcast_log := [] }

/-- The field names of a JSON object (empty for any other JSON value). -/
def recordKeys (j : JsonVal) : List String :=
  match j with
  | .obj fs => fs.map Prod.fst
  | _ => []

/-- C8: deserializing the serialized wire form of any Message — optional
fields set or unset — yields the message back on every field. The hypotheses
are the model invariant `priority ∈ [1,10]`, which every constructed Message
carries and which deserialization re-checks. -/
theorem C8_serialize_roundtrip (m : Message) (h1 : 1 ≤ m.priority)
    (h2 : m.priority ≤ 10) :
    model_validate_json (model_dump_json m) = some m :=
  validate_dump_roundtrip m h1 h2

theorem C8_serialize_roundtrip_witness :
    (1 ≤ msgBare.priority ∧ msgBare.priority ≤ 10) ∧
    model_validate_json (model_dump_json msgBare) = some msgBare :=
  ⟨by decide, C8_serialize_roundtrip msgBare (by decide) (by decide)⟩

/-- C7: a message whose `from_agent` equals the receiving agent's own id is
discarded unprocessed — the guard fires before any handler lookup, so neither
a registered (default or custom) handler nor the custom-message fallback is
ever invoked for it. -/
theorem C7_self_echo_discarded (a : AgentRec) (m : Message)
    (h : m.from_agent = a.agent_id) :
    handle_message a m = HandleResult.discarded := by
  simp [handle_message, h]

theorem C7_self_echo_discarded_witness :
    ({ msgBare with message_type := "ping" } : Message).from_agent = agentA.agent_id ∧
    handle_message agentA { msgBare with message_type := "ping" } = HandleResult.discarded :=
  ⟨rfl, C7_self_echo_discarded agentA { msgBare with message_type := "ping" } rfl⟩

/-- C10: the history projection records exactly the fields id, from_agent,
to_agent, message_type, payload, created_at and correlation_id; priority and
expires_at are dropped; and `store_message_in_history` stores that projection
as the newest entry of the agent's history list. -/
theorem C10_history_projection (m : Message) (hs : HistoryStore) (agent_id : String) :
    recordKeys (history_record m) =
      ["id", "from_agent", "to_agent", "message_type", "payload", "created_at",
       "correlation_id"] ∧
    "priority" ∉ recordKeys (history_record m) ∧
    "expires_at" ∉ recordKeys (history_record m) ∧
    ((tableGet ((store_message_in_history (some hs) agent_id m).getD hs)
        ("history:" ++ agent_id)).getD []).head? = some (history_record m) := by
  have hk : recordKeys (history_record m) =
      ["id", "from_agent", "to_agent", "message_type", "payload", "created_at",
       "correlation_id"] := rfl
  refine ⟨hk, by rw [hk]; decide, by rw [hk]; decide, ?_⟩
  show ((tableGet (tableSet hs ("history:" ++ agent_id)
      ((history_record m :: (tableGet hs ("history:" ++ agent_id)).getD []).take 1000))
      ("history:" ++ agent_id)).getD []).head? = some (history_record m)
  rw [tableGet_tableSet_self]
  rfl

/-- C5 counterexample: constructing a Message with an empty `from_agent` and a
valid priority succeeds — the model declares no constraint on the sender
field, so the claimed empty-sender rejection does not exist. -/
theorem C5_counterexample :
    mkMessage "m0" "" none "t" [] 5 0 none none =
      some { id := "m0", from_agent := "", to_agent := none, message_type := "t",
             payload := [], priority := 5, created_at := 0, expires_at := none,
             correlation_id := none } := rfl

/-- C5 amended: Message construction fails with ValidationError if and only if
`priority` lies outside [1,10] — an empty `from_agent` is accepted — and on
success the Message carries exactly the given fields; construction is a pure
function (no side effects, no I/O). -/
theorem C5_validation (id from_agent : String) (to_agent : Option String)
    (message_type : String) (payload : List (String × JsonVal)) (priority : Int)
    (created_at : Int) (expires_at : Option Int) (correlation_id : Option String) :
    (mkMessage id from_agent to_agent message_type payload priority created_at
        expires_at correlation_id = none ↔ ¬(1 ≤ priority ∧ priority ≤ 10)) ∧
    (1 ≤ priority → priority ≤ 10 →
      mkMessage id from_agent to_agent message_type payload priority created_at
        expires_at correlation_id =
      some { id := id, from_agent := from_agent, to_agent := to_agent,
             message_type := message_type, payload := payload, priority := priority,
             created_at := created_at, expires_at := expires_at,
             correlation_id := correlation_id }) := by
  unfold mkMessage
  constructor
  · by_cases h : 1 ≤ priority ∧ priority ≤ 10 <;> simp [h]
  · intro h1 h2
    simp [h1, h2]

theorem C5_validation_witness :
    ((1:Int) ≤ 7 ∧ (7:Int) ≤ 10) ∧
    mkMessage "m1" "alice" none "ping" [] 7 0 none none =
      some { id := "m1", from_agent := "alice", to_agent := none,
             message_type := "ping", payload := [], priority := 7, created_at := 0,
             expires_at := none, correlation_id := none } :=
  ⟨by decide,
    (C5_validation "m1" "alice" none "ping" [] 7 0 none none).2 (by decide) (by decide)⟩

/-- C6 counterexample: calling `shutdown()` twice does broadcast the
`agent_shutdown` notice a second time — the body has no state guard, so the
second call appends a second broadcast. -/
theorem C6_counterexample :
    (shutdown agentA).broadcast_log = ["agent_shutdown"] ∧
    (shutdown (shutdown agentA)).broadcast_log = ["agent_shutdown", "agent_shutdown"] :=
  ⟨rfl, rfl⟩

/-- C6 amended: calling `shutdown()` twice never raises (`shutdown` is a total
function; the broadcast call catches its own errors), but every call on an
agent whose message queue is set broadcasts the `agent_shutdown` notice
again — there is no STOPPED-state guard in the code. -/
theorem C6_shutdown_rebroadcasts (a : AgentRec) (h : a.message_queue = true) :
    (shutdown a).broadcast_log = a.broadcast_log ++ ["agent_shutdown"] ∧
    (shutdown (shutdown a)).broadcast_log =
      a.broadcast_log ++ ["agent_shutdown", "agent_shutdown"] := by
  unfold shutdown
  simp [h]

theorem C6_shutdown_rebroadcasts_witness :
    agentA.message_queue = true ∧
    (shutdown (shutdown agentA)).broadcast_log =
      agentA.broadcast_log ++ ["agent_shutdown", "agent_shutdown"] :=
  ⟨rfl, (C6_shutdown_rebroadcasts agentA rfl).2⟩

/-- C4 counterexample: a publish attempted before any connection has been
established raises `RuntimeError("Redis not connected")` to the caller instead
of returning false. -/
theorem C4_counterexample :
    publish_message 0 none msgBare none = Except.error "Redis not connected" := rfl

/-- C4 amended: when a connection object exists but the store is unreachable,
publish returns false and never raises; when no connection has been
established at all, publish raises RuntimeError("Redis not connected"). -/
theorem C4_publish_failure (now : Int) (r : MQ) (m : Message) (ch : Option String)
    (hr : r.reachable = false) :
    publish_message now (some r) m ch = Except.ok (r, false) ∧
    publish_message now none m ch = Except.error "Redis not connected" := by
  refine ⟨?_, rfl⟩
  unfold publish_message
  simp [hr]

theorem C4_publish_failure_witness :
    ({ emptyMQ with reachable := false } : MQ).reachable = false ∧
    publish_message 0 (some { emptyMQ with reachable := false }) msgBare none =
      Except.ok ({ emptyMQ with reachable := false }, false) :=
  ⟨rfl, (C4_publish_failure 0 { emptyMQ with reachable := false } msgBare none rfl).1⟩

/-- C2: two messages enqueued to the same channel with equal `created_at`
(epoch second) and priorities p1 < p2 are popped p1-first: the scores
`p * 1000000 - created_at` order by priority when the timestamps agree, and
`ZPOPMIN` returns the lowest score. Distinct messages serialize to distinct
members, and both survive the pop-side re-validation since their priorities
lie in [1,10] (forced by `1 ≤ p1 < p2 ≤ 10`). The channel name must be
non-empty: a falsy (empty) channel argument is redirected by publish to the
message's default channel and never reaches the named key. -/
theorem C2_priority_order (ch : String) (m1 m2 : Message) (t1 t2 t3 t4 : Int)
    (hch : ch ≠ "")
    (h12 : m1 ≠ m2)
    (hp : m1.priority < m2.priority)
    (hc : m1.created_at = m2.created_at)
    (hv1 : 1 ≤ m1.priority) (hv2 : m2.priority ≤ 10)
    (he1 : m1.expires_at = none) (he2 : m2.expires_at = none) :
    (popMsg t3 (pubOk t2 (pubOk t1 emptyMQ m1 (some ch)) m2 (some ch)) ch).1 = some m1 ∧
    (popMsg t4 (popMsg t3 (pubOk t2 (pubOk t1 emptyMQ m1 (some ch)) m2 (some ch)) ch).2 ch).1 =
      some m2 := by
  have hnlt : ¬ (m2.priority * 1000000 - m2.created_at <
      m1.priority * 1000000 - m1.created_at) := by omega
  have hrt1 := validate_dump_roundtrip m1 hv1 (by omega)
  have hrt2 := validate_dump_roundtrip m2 (by omega) hv2
  have hres1 : resolve_channel m1 (some ch) = ch := by
    simp [resolve_channel, hch]
  have hres2 : resolve_channel m2 (some ch) = ch := by
    simp [resolve_channel, hch]
  unfold pubOk popMsg publish_message get_message_from_queue
  simp [emptyMQ, he1, he2, h12, hnlt, hrt1, hrt2, hres1, hres2, zadd, getLive,
        tableGet, tableSet, tableDel, RKey.live, zaddEntries, minEntry, removeFirst,
        zpopmin]

/-- Scenario A's M1: priority 1. -/
def msgM1 : Message :=
  { id := "m1", from_agent := "alice", to_agent := none, message_type := "job",
    payload := [], priority := 1, created_at := 1700000000, expires_at := none,
    correlation_id := none }

/-- Scenario A's M2: priority 9, same created_at epoch second as M1. -/
def msgM2 : Message :=
  { id := "m2", from_agent := "alice", to_agent := none, message_type := "job",
    payload := [], priority := 9, created_at := 1700000000, expires_at := none,
    correlation_id := none }

theorem C2_priority_order_witness :
    (msgM1 ≠ msgM2 ∧ msgM1.priority < msgM2.priority ∧
      msgM1.created_at = msgM2.created_at) ∧
    (popMsg 1700000002 (pubOk 1700000001 (pubOk 1700000000 emptyMQ msgM1 (some "q"))
        msgM2 (some "q")) "q").1 = some msgM1 ∧
    (popMsg 1700000003 (popMsg 1700000002 (pubOk 1700000001
        (pubOk 1700000000 emptyMQ msgM1 (some "q")) msgM2 (some "q")) "q").2 "q").1 =
      some msgM2 :=
  ⟨⟨by decide, by decide, rfl⟩,
    C2_priority_order "q" msgM1 msgM2 1700000000 1700000001 1700000002 1700000003
      (by decide) (by decide) (by decide) rfl (by decide) (by decide) rfl rfl⟩

/-- Task A, enqueued first in the C1 scenario. -/
def taskA : TaskDict := [("task_id", .str "A")]

/-- Task B, enqueued second in the C1 scenario. -/
def taskB : TaskDict := [("task_id", .str "B")]

/-- C1 counterexample: two equal-priority tasks enqueued at seconds 100 and
200: the pop returns the later (t2 = 200) task, not the earlier one the claim
requires — the score `priority * 1000000 - enqueue_time` gives the later
entry the smaller score, and `ZPOPMIN` pops the smallest. -/
theorem C1_counterexample :
    ((100 : Int) < 200) ∧ taskB ≠ taskA ∧
    (popTask 300 (addTaskOk 200 (addTaskOk 100 [] "q" taskA 5) "q" taskB 5) "q").1 =
      some taskB :=
  ⟨by decide, by decide, rfl⟩

/-- C1 amended: for two entries with equal priority enqueued at t1 < t2, the
pop yields the t2 entry first and the t1 entry second — LIFO within equal
priority: subtracting the increasing enqueue timestamp makes the later
entry's score the smaller one, and the pop takes the lowest score. -/
theorem C1_equal_priority_lifo (q : String) (a b : TaskDict) (p t1 t2 t3 t4 : Int)
    (hab : a ≠ b) (ht : t1 < t2) :
    (popTask t3 (addTaskOk t2 (addTaskOk t1 [] q a p) q b p) q).1 = some b ∧
    (popTask t4 (popTask t3 (addTaskOk t2 (addTaskOk t1 [] q a p) q b p) q).2 q).1 =
      some a := by
  have hlt : p * 1000000 - t2 < p * 1000000 - t1 := by omega
  have hab2 : ¬ (a = b) := hab
  unfold addTaskOk popTask add_task_to_queue get_task_from_queue
  simp [hab2, hlt, zadd, getLive, tableGet, tableSet, tableDel, RKey.live,
        zaddEntries, minEntry, removeFirst, zpopmin]

theorem C1_equal_priority_lifo_witness :
    (taskA ≠ taskB ∧ (100 : Int) < 200) ∧
    (popTask 300 (addTaskOk 200 (addTaskOk 100 [] "q" taskA 5) "q" taskB 5) "q").1 =
      some taskB ∧
    (popTask 301 (popTask 300 (addTaskOk 200 (addTaskOk 100 [] "q" taskA 5) "q"
        taskB 5) "q").2 "q").1 = some taskA :=
  ⟨⟨by decide, by decide⟩,
    C1_equal_priority_lifo "q" taskA taskB 5 100 200 300 301 (by decide) (by decide)⟩

/-- A message whose `expires_at` (epoch second 100) lies in the past at
publish time 1000 but after its own `created_at` (epoch second 0). -/
def msgStale : Message :=
  { id := "m3", from_agent := "alice", to_agent := some "bob",
    message_type := "job", payload := [], priority := 5, created_at := 0,
    expires_at := some 100, correlation_id := none }

/-- C3 counterexample: `msgStale`'s `expires_at` = 100 has long passed at
publish time 1000, yet the pop right after the publish still returns the
entry: the store-level ttl is computed as `expires_at - created_at` = 100
seconds from the publish instant, not from the expiry instant, so the key
only dies at 1100. -/
theorem C3_counterexample :
    msgStale.expires_at = some 100 ∧ ((100 : Int) < 1000) ∧
    (popMsg 1000 (pubOk 1000 emptyMQ msgStale none) "agent:bob").1 = some msgStale :=
  ⟨rfl, by decide, rfl⟩

/-- C3 amended: the store expiration is `expires_at - created_at` seconds from
the publish instant, so the claim holds exactly when that ttl is non-positive
(`expires_at ≤ created_at`, e.g. ttl_seconds = 0): such a message is never
returned by a subsequent pop, and its channel's durable queue reads length 0 —
the expired key is invisible to both pop and queue_length. (A message whose
`expires_at` has passed but exceeds its `created_at` can still be popped: see
the counterexample.) The channel name must be non-empty: a falsy (empty)
channel argument is redirected by publish to the message's default channel,
whose key is the one expired. -/
theorem C3_expired_invisible (now t e : Int) (r : MQ) (m : Message) (ch : String)
    (hch : ch ≠ "") (hr : r.reachable = true) (he : m.expires_at = some e)
    (hpast : e ≤ m.created_at) (ht : now ≤ t) :
    (popMsg t (pubOk now r m (some ch)) ch).1 = none ∧
    queueLen t (pubOk now r m (some ch)) ch = 0 := by
  have hd := publish_expired_key_dead now t e r m ch hch hr he (by omega)
  have hr2 : (pubOk now r m (some ch)).reachable = true := by
    rw [pubOk_reachable]; exact hr
  exact ⟨by rw [popMsg_of_dead t _ ch hr2 hd], queueLen_of_dead t _ ch hr2 hd⟩

/-- A message published with zero remaining ttl: `expires_at = created_at`. -/
def msgTTL0 : Message :=
  { id := "m4", from_agent := "alice", to_agent := some "bob",
    message_type := "job", payload := [], priority := 5, created_at := 50,
    expires_at := some 50, correlation_id := none }

theorem C3_expired_invisible_witness :
    (emptyMQ.reachable = true ∧ msgTTL0.expires_at = some 50 ∧
      (50 : Int) ≤ msgTTL0.created_at ∧ (1000 : Int) ≤ 1001) ∧
    (popMsg 1001 (pubOk 1000 emptyMQ msgTTL0 (some "q")) "q").1 = none ∧
    queueLen 1001 (pubOk 1000 emptyMQ msgTTL0 (some "q")) "q" = 0 :=
  ⟨⟨rfl, rfl, by decide, by decide⟩,
    C3_expired_invisible 1000 1001 50 emptyMQ msgTTL0 "q" (by decide) rfl rfl
      (by decide) (by decide)⟩

/-- C9: publishing a message that carries an `expires_at` applies the
expiration to the entire durable queue key of the channel, not only to the new
entry: whatever the queue held before the publish, from instant
`now + (expires_at - created_at)` on the whole key is gone — pop returns
nothing and queue_length reads 0, previously enqueued entries included. The
channel name must be non-empty: a falsy (empty) channel argument is
redirected by publish to the message's default channel, whose key is the one
expired. -/
theorem C9_expire_whole_key (now t e : Int) (r : MQ) (m : Message) (ch : String)
    (hch : ch ≠ "") (hr : r.reachable = true) (he : m.expires_at = some e)
    (ht : now + (e - m.created_at) ≤ t) :
    (popMsg t (pubOk now r m (some ch)) ch).1 = none ∧
    queueLen t (pubOk now r m (some ch)) ch = 0 := by
  have hd := publish_expired_key_dead now t e r m ch hch hr he ht
  have hr2 : (pubOk now r m (some ch)).reachable = true := by
    rw [pubOk_reachable]; exact hr
  exact ⟨by rw [popMsg_of_dead t _ ch hr2 hd], queueLen_of_dead t _ ch hr2 hd⟩

/-- An earlier message sitting in the queue with no expiration of its own. -/
def msgOld : Message :=
  { id := "m-old", from_agent := "alice", to_agent := none,
    message_type := "job", payload := [], priority := 2, created_at := 10,
    expires_at := none, correlation_id := none }

/-- A later message carrying `expires_at` = 1060 (created at 1000). -/
def msgExp : Message :=
  { id := "m-exp", from_agent := "alice", to_agent := none,
    message_type := "job", payload := [], priority := 7, created_at := 1000,
    expires_at := some 1060, correlation_id := none }

theorem C9_expire_whole_key_witness :
    ((pubOk 10 emptyMQ msgOld (some "q")).reachable = true ∧
      msgExp.expires_at = some 1060 ∧
      (1000 : Int) + (1060 - msgExp.created_at) ≤ 1060) ∧
    queueLen 1059 (pubOk 1000 (pubOk 10 emptyMQ msgOld (some "q")) msgExp
      (some "q")) "q" = 2 ∧
    (popMsg 1060 (pubOk 1000 (pubOk 10 emptyMQ msgOld (some "q")) msgExp
      (some "q")) "q").1 = none ∧
    queueLen 1060 (pubOk 1000 (pubOk 10 emptyMQ msgOld (some "q")) msgExp
      (some "q")) "q" = 0 :=
  ⟨⟨rfl, rfl, by decide⟩, rfl,
    (C9_expire_whole_key 1000 1060 1060 (pubOk 10 emptyMQ msgOld (some "q")) msgExp "q"
      (by decide) rfl rfl (by decide)).1,
    (C9_expire_whole_key 1000 1060 1060 (pubOk 10 emptyMQ msgOld (some "q")) msgExp "q"
      (by decide) rfl rfl (by decide)).2⟩
